import Mathlib

/-!
# Verification of the ESP32 onboarding firmware (`src/eps32/idea.cpp`)

Shallow embedding of the provisioning / connectivity state machine:
credential store, factory-reset hold check, captive portal routing,
the `/save` validation handler, STA boot decision, and the heartbeat
scheduler and dispatcher.  Time-polling busy-wait loops are embedded as
functions of a sampled trace: poll `k` of a loop with a `delay(d)` body
reads the sampled signal at elapsed time `d * k` milliseconds.
Arduino `millis()` arithmetic is on 32-bit unsigned values, modelled as
`Nat` with explicit `% 2 ^ 32`.
-/

/-- `FACTORY_HOLD_MS` from the source: 30 s hold for factory reset. -/
def FACTORY_HOLD_MS : Nat := 30000

/-- `WIFI_CONNECT_TIMEOUT_MS` from the source: 20 s validation connect. -/
def WIFI_CONNECT_TIMEOUT_MS : Nat := 20000

/-- `WIFI_RETRY_TOTAL_MS` from the source: 30 s boot-time connect. -/
def WIFI_RETRY_TOTAL_MS : Nat := 30000

/-- `HEARTBEAT_INTERVAL_MS` from the source: 60 s heartbeat period. -/
def HEARTBEAT_INTERVAL_MS : Nat := 60000

/-- `ALLOW_INSECURE_HTTPS` from the source: insecure TLS is enabled. -/
def ALLOW_INSECURE_HTTPS : Bool := true

/-- Wrap-around bound of `unsigned long` (`millis()`) on the ESP32. -/
def MILLIS_WRAP : Nat := 2 ^ 32

/-- Elapsed milliseconds `now - last` under 32-bit unsigned wrap-around. -/
def wrapSub (now last : Nat) : Nat := (now + (MILLIS_WRAP - last)) % MILLIS_WRAP

/--
The Wi-Fi connect busy-wait shared by the `/save` validation and
`connectSTA`:

`while (WiFi.status() != WL_CONNECTED && (millis() - t0) < timeout) delay(250);`
`return WiFi.status() == WL_CONNECTED;`

`status j = true` means the radio reports `WL_CONNECTED` at poll `j`
(elapsed `250 * j` ms).  `fuel` is the number of remaining polls at which
the elapsed time is still below the timeout; when it reaches `0` the
elapsed time has hit the timeout and the loop exits returning the status
it reads there.
-/
def joinLoop (status : Nat → Bool) : Nat → Nat → Bool
  | k, 0 => status k
  | k, fuel + 1 => if status k then true else joinLoop status (k + 1) fuel

/--
The factory-reset hold busy-wait (`checkFactoryResetHold`):

`while (digitalRead(RESET_BTN_PIN) == LOW) {`
`  if (millis() - t0 >= FACTORY_HOLD_MS) return true; delay(10); }`

`pressed j = true` means the button reads LOW (active) at poll `j`
(elapsed `10 * j` ms).  `fuel` counts the remaining polls below the
threshold; at fuel `0` the elapsed time has reached the threshold, so
the loop returns `true` exactly when the button is still held there.
-/
def holdLoop (pressed : Nat → Bool) : Nat → Nat → Bool
  | k, 0 => pressed k
  | k, fuel + 1 => if pressed k then holdLoop pressed (k + 1) fuel else false

/--
`checkFactoryResetHold` from the source: sample the button once at boot;
if inactive, return `false` immediately, otherwise run the hold loop.
-/
def checkFactoryResetHold (pressed : Nat → Bool) : Bool :=
  if pressed 0 then holdLoop pressed 0 (FACTORY_HOLD_MS / 10) else false

/-- The three NVS fields of the `net` namespace (`ssid`, `pass`, `api`);
`loadPrefs` reads them with default `""`, so an absent field is `""`. -/
structure Credentials where
  ssid : String
  pass : String
  api : String
deriving DecidableEq

/-- Radio mode as set by `WiFi.mode`. -/
inductive WifiMode
  | AP
  | STA
deriving DecidableEq

/-- Response bodies sent by the portal, identified by which source line
builds them (the HTML text itself is out of scope). -/
inductive Body
  | configPage
  | requiredFieldsMsg
  | successPage
  | failurePage
  | emptyBody
deriving DecidableEq

/-- An HTTP response as produced by `server.send` (+ optional `Location`
header added by `server.sendHeader`). -/
structure HttpResponse where
  code : Nat
  location : Option String
  body : Body
deriving DecidableEq

/-- Everything the `/save` handler does: the response it sends, the
resulting durable record, whether `prefs.putString` ran, whether a
join attempt (`WiFi.begin` + wait loop) ran, the radio mode afterwards,
and whether `ESP.restart()` is scheduled. -/
structure SaveResult where
  response : HttpResponse
  store : Credentials
  storeWritten : Bool
  joinAttempted : Bool
  mode : WifiMode
  restart : Bool
deriving DecidableEq

/-- The `/save` POST handler registered in `startAPMode`.  `store` is the
durable record before the request; `ssid`, `ssidManual`, `pass`, `api`
are `server.arg("ssid")`, `server.arg("ssid_manual")`, `server.arg("pass")`,
`server.arg("api")`; `status` is the sampled radio status trace of the
validation join attempt (poll `k` at elapsed `250 * k` ms). -/
def handleSave (store : Credentials) (ssid ssidManual pass api : String)
    (status : Nat → Bool) : SaveResult :=
  let ssidEff := if ssidManual.length ≠ 0 then ssidManual else ssid
  if ssidEff.length = 0 ∨ api.length = 0 then
    { response := ⟨400, none, Body.requiredFieldsMsg⟩, store := store,
      storeWritten := false, joinAttempted := false, mode := WifiMode.AP,
      restart := false }
  else if joinLoop status 0 (WIFI_CONNECT_TIMEOUT_MS / 250) then
    { response := ⟨200, none, Body.successPage⟩,
      store := ⟨ssidEff, pass, api⟩, storeWritten := true,
      joinAttempted := true, mode := WifiMode.STA, restart := true }
  else
    { response := ⟨200, none, Body.failurePage⟩, store := store,
      storeWritten := false, joinAttempted := true, mode := WifiMode.AP,
      restart := false }

/-- Outcome of `setup()` after `loadPrefs`: the mode the device ends up
in and whether `connectSTA` (a join with the stored credentials) ran. -/
structure BootResult where
  mode : WifiMode
  joinAttempted : Bool
deriving DecidableEq

/-- The boot decision in `setup()`: after `loadPrefs`, enter AP setup
mode when `g_ssid` or `g_api` is empty; otherwise run `connectSTA`
with the 30 s boot timeout and fall back to AP mode on failure.
`status` is the sampled radio status trace (poll `k` at `250 * k` ms). -/
def setupBoot (stored : Credentials) (status : Nat → Bool) : BootResult :=
  if stored.ssid.length = 0 ∨ stored.api.length = 0 then
    ⟨WifiMode.AP, false⟩
  else if joinLoop status 0 (WIFI_RETRY_TOTAL_MS / 250) then
    ⟨WifiMode.STA, true⟩
  else
    ⟨WifiMode.AP, true⟩

/-- `isIp` from the source: `true` iff every character is `'.'` or a
decimal digit (note: `true` on the empty string). -/
def isIp (str : String) : Bool :=
  str.data.all (fun c => !(decide (c ≠ '.') && (decide (c < '0') || decide ('9' < c))))

/-- `handleCaptivePortal`: when the `Host` header does not look like an
IP, send a 302 redirect to the device's own address; otherwise send
nothing.  (`server.client().localIP()` is the AP address `apIP`.) -/
def handleCaptivePortal (apIP : String) (host : String) : List HttpResponse :=
  if ¬ isIp host then
    [⟨302, some ((String.append ("http://") apIP)), Body.emptyBody⟩]
  else
    []

/-- HTTP request method, as matched by `WebServer.on`. -/
inductive Method
  | GET
  | POST
deriving DecidableEq

/-- An inbound request while the portal is up: method, path, `Host`
header, and the four form arguments read by the `/save` handler. -/
structure Request where
  method : Method
  path : String
  host : String
  argSsid : String
  argSsidManual : String
  argPass : String
  argApi : String
deriving DecidableEq

/-- The portal's routing as registered in `startAPMode`: `GET /` serves
the configuration page; `POST /save` runs the save handler; everything
else hits `onNotFound`, which runs `handleCaptivePortal` and then
unconditionally also sends the configuration page.  Returns the list of
responses written to the client, in order. -/
def portalResponses (apIP : String) (store : Credentials)
    (status : Nat → Bool) (req : Request) : List HttpResponse :=
  if req.method = Method.GET ∧ req.path = "/" then
    [⟨200, none, Body.configPage⟩]
  else if req.method = Method.POST ∧ req.path = "/save" then
    [(handleSave store req.argSsid req.argSsidManual req.argPass req.argApi
        status).response]
  else
    handleCaptivePortal apIP req.host ++ [⟨200, none, Body.configPage⟩]

/-- The `hex` table indexed by `urlEncode`: `"0123456789ABCDEF"`. -/
def hexTable : List Char :=
  ['0', '1', '2', '3', '4', '5', '6', '7', '8', '9', 'A', 'B', 'C', 'D', 'E', 'F']

/-- Value of a byte read through `char` on the ESP32 toolchain, where
`char` is signed: bytes at or above 128 are negative. -/
def signedChar (b : Nat) : Int := if b < 128 then (b : Int) else (b : Int) - 256

/-- The pass-through test of `urlEncode`:
`('a'<=c&&c<='z')||('A'<=c&&c<='Z')||('0'<=c&&c<='9')||c=='-'||c=='_'||c=='.'||c=='~'`
on the (promoted) `char` value. -/
def isUnreservedSrc (sc : Int) : Bool :=
  decide ((97 ≤ sc ∧ sc ≤ 122) ∨ (65 ≤ sc ∧ sc ≤ 90) ∨ (48 ≤ sc ∧ sc ≤ 57) ∨
    sc = 45 ∨ sc = 95 ∨ sc = 46 ∨ sc = 126)

/-- One iteration of the `urlEncode` loop body.  `c >> 4` is an
arithmetic shift on the promoted signed value, rendered as `Int.fdiv`
by 16; `& 0xF` is a two's-complement mask, rendered as `Int.emod` 16. -/
def encodeByte (c : Char) : List Char :=
  let sc : Int := signedChar c.toNat
  if isUnreservedSrc sc then [c]
  else if sc = 32 then ['+']
  else ['%', hexTable.getD ((sc.fdiv 16).emod 16).toNat ' ',
    hexTable.getD (sc.emod 16).toNat ' ']

/-- The `urlEncode` accumulation loop over the input characters. -/
def urlEncodeList : List Char → List Char
  | [] => []
  | c :: cs => encodeByte c ++ urlEncodeList cs

/-- `urlEncode` from the source. -/
def urlEncode (src : String) : String := ⟨urlEncodeList src.data⟩

/-- Decimal digit character, used to model Arduino `String(number)`. -/
def digitChar (n : Nat) : Char :=
  if n = 0 then '0' else if n = 1 then '1' else if n = 2 then '2'
  else if n = 3 then '3' else if n = 4 then '4' else if n = 5 then '5'
  else if n = 6 then '6' else if n = 7 then '7' else if n = 8 then '8'
  else if n = 9 then '9' else '0'

/-- Decimal digit string of a natural number, most significant first. -/
def natDigits (n : Nat) : List Char :=
  if n < 10 then [digitChar n]
  else natDigits (n / 10) ++ [digitChar (n % 10)]
decreasing_by exact Nat.div_lt_self (by omega) (by omega)

/-- Model of Arduino `String(unsigned long)` (used for `millis()`). -/
def natDecimal (n : Nat) : String := ⟨natDigits n⟩

/-- Model of Arduino `String(int)` (used for `WiFi.RSSI()`): a minus
sign followed by the decimal digits of the absolute value. -/
def intDecimal (i : Int) : String :=
  if i < 0 then "-" ++ natDecimal i.natAbs else natDecimal i.natAbs

/-- The client object chosen for the heartbeat request: `WiFiClient`
(plain TCP), or `WiFiClientSecure` with `setInsecure()` (TLS without
certificate validation), or `WiFiClientSecure` validating. -/
inductive TransportKind
  | plainTcp
  | tlsInsecure
  | tlsValidating
deriving DecidableEq

/-- Result of `http.GET()` at the `HTTPClient` interface: either some
HTTP response was obtained (carrying its status code), or no response at
all (transport failure, for which `HTTPClient` returns a negative
`HTTPC_ERROR_*` constant). -/
inductive HttpGetOutcome
  | response (statusCode : Nat)
  | noResponse (err : Int)
deriving DecidableEq

/-- The integer `http.GET()` returns: the status code of an obtained
response, or the (negative) transport error code. -/
def getReturnCode : HttpGetOutcome → Int
  | HttpGetOutcome.response s => (s : Int)
  | HttpGetOutcome.noResponse e => e

/-- Everything one call of `sendHeartbeat` does: the URL handed to
`http.begin` (none when the call bails out early), the client kind
chosen, how many `http.GET()` dispatches ran, the `ok` classification,
and whether the `[HB] Request failed` line was logged. -/
structure HeartbeatResult where
  urlRequested : Option String
  transport : Option TransportKind
  getCalls : Nat
  ok : Bool
  loggedFailure : Bool
deriving DecidableEq

/-- The heartbeat request URL `url + q` built by `sendHeartbeat`:
`url` is `g_api` and `q` appends the percent-encoded local address, the
signal strength and the uptime. -/
def heartbeatUrl (gApi ipStr : String) (rssi : Int) (uptimeMs : Nat) : String :=
  gApi ++ ("?device=ESP32&ip=" ++ urlEncode ipStr ++ "&rssi=" ++
    intDecimal rssi ++ "&uptime_ms=" ++ natDecimal uptimeMs)

/-- The client chosen by `sendHeartbeat` from the URL scheme:
`WiFiClientSecure` (with `setInsecure()` since `ALLOW_INSECURE_HTTPS`)
when the URL starts with `https://`, plain `WiFiClient` otherwise. -/
def heartbeatTransport (url : String) : TransportKind :=
  if url.startsWith ("https://") then
    (if ALLOW_INSECURE_HTTPS then TransportKind.tlsInsecure
     else TransportKind.tlsValidating)
  else TransportKind.plainTcp

/-- `sendHeartbeat` from the source.  `gApi` is the global `g_api`;
`connected` is `WiFi.status() == WL_CONNECTED`; `ipStr` is
`WiFi.localIP().toString()`; `rssi` is `WiFi.RSSI()`; `uptimeMs` is
`millis()`; `beginOk` is the return of `http.begin`; `outcome` is what
the network did with the single GET. -/
def sendHeartbeat (gApi : String) (connected : Bool) (ipStr : String)
    (rssi : Int) (uptimeMs : Nat) (beginOk : Bool)
    (outcome : HttpGetOutcome) : HeartbeatResult :=
  if gApi.length = 0 then ⟨none, none, 0, false, false⟩
  else if connected = false then ⟨none, none, 0, false, false⟩
  else if beginOk then
    ⟨some (heartbeatUrl gApi ipStr rssi uptimeMs),
      some (heartbeatTransport gApi), 1,
      decide (0 < getReturnCode outcome),
      !decide (0 < getReturnCode outcome)⟩
  else
    ⟨some (heartbeatUrl gApi ipStr rssi uptimeMs),
      some (heartbeatTransport gApi), 0, false, true⟩

/-- The mutable process state the main loop touches. -/
structure DeviceState where
  creds : Credentials
  lastHeartbeat : Nat
  mode : WifiMode
deriving DecidableEq

/-- One `loop()` iteration: the state afterwards, whether the heartbeat
timer fired, and the heartbeat call's result when it did. -/
structure LoopResult where
  state : DeviceState
  fired : Bool
  hb : Option HeartbeatResult
deriving DecidableEq

/-- `loop()` from the source: in AP mode only service the portal;
otherwise read `now = millis()` and, when `now - lastHeartbeat` (32-bit
wrap-around subtraction) has reached the interval, set
`lastHeartbeat = now` and call `sendHeartbeat`. -/
def loopStep (st : DeviceState) (now : Nat) (connected : Bool)
    (ipStr : String) (rssi : Int) (beginOk : Bool)
    (outcome : HttpGetOutcome) : LoopResult :=
  if st.mode = WifiMode.AP then ⟨st, false, none⟩
  else if HEARTBEAT_INTERVAL_MS ≤ wrapSub now st.lastHeartbeat then
    ⟨{ st with lastHeartbeat := now }, true,
      some (sendHeartbeat st.creds.api connected ipStr rssi now beginOk outcome)⟩
  else ⟨st, false, none⟩

/-- Uppercase hexadecimal digit of a value below 16 (claim wording). -/
def upperHexDigit (n : Nat) : Char := (Nat.digitChar n).toUpper

/-- The pass-through set as claim C10 words it: `[A-Za-z0-9]`
(codes 65-90, 97-122, 48-57) and the marks `'-'` (45), `'_'` (95),
`'.'` (46), `'~'` (126). -/
def specUnreserved (b : Nat) : Bool :=
  decide ((65 ≤ b ∧ b ≤ 90) ∨ (97 ≤ b ∧ b ≤ 122) ∨ (48 ≤ b ∧ b ≤ 57) ∨
    b = 45 ∨ b = 95 ∨ b = 46 ∨ b = 126)

/-- Per-character mapping as claim C10 words it: characters of the
pass-through set map to themselves, the space character (code 32) maps
to `'+'`, and every other byte maps to `'%'` followed by its two
uppercase hexadecimal digits. -/
def specEncodeChar (c : Char) : List Char :=
  if specUnreserved c.toNat then [c]
  else if c.toNat = 32 then ['+']
  else ['%', upperHexDigit (c.toNat / 16), upperHexDigit (c.toNat % 16)]

/-- Percent-encoding of a whole string as claim C10 describes it:
per-character images concatenated in input order. -/
def urlEncodeSpec (src : String) : String := ⟨(src.data.map specEncodeChar).flatten⟩

/-- The characters a decimal rendering can contain. -/
def decimalChars : List Char :=
  ['-', '0', '1', '2', '3', '4', '5', '6', '7', '8', '9']

/-- The `HTTPClient` interface contract for the value behind a
`http.GET()` outcome: an obtained response carries a real HTTP status
(at least 100); a transport failure is reported as a negative
`HTTPC_ERROR_*` code. -/
def validGetOutcome : HttpGetOutcome → Prop
  | HttpGetOutcome.response s => 100 ≤ s
  | HttpGetOutcome.noResponse e => e < 0

theorem joinLoop_eq_true_iff (status : Nat → Bool) (fuel k : Nat) :
    joinLoop status k fuel = true ↔ ∃ j, j ≤ fuel ∧ status (k + j) = true := by
  induction fuel generalizing k with
  | zero =>
    simp only [joinLoop]
    constructor
    · intro h
      exact ⟨0, Nat.le_refl 0, by simpa using h⟩
    · rintro ⟨j, hj, hs⟩
      obtain rfl : j = 0 := Nat.le_zero.mp hj
      simpa using hs
  | succ f ih =>
    simp only [joinLoop]
    cases hs : status k with
    | true =>
      simp only [if_true, true_iff]
      exact ⟨0, Nat.zero_le _, by simpa using hs⟩
    | false =>
      simp only [Bool.false_eq_true, if_false, ih]
      constructor
      · rintro ⟨j, hj, hsj⟩
        exact ⟨j + 1, by omega, by
          have : k + 1 + j = k + (j + 1) := by omega
          simpa [this] using hsj⟩
      · rintro ⟨j, hj, hsj⟩
        cases j with
        | zero => exact absurd (by simpa using hsj) (by simp [hs])
        | succ j =>
          exact ⟨j, by omega, by
            have : k + (j + 1) = k + 1 + j := by omega
            simpa [this] using hsj⟩

theorem holdLoop_eq_true_iff (pressed : Nat → Bool) (fuel k : Nat) :
    holdLoop pressed k fuel = true ↔ ∀ j, j ≤ fuel → pressed (k + j) = true := by
  induction fuel generalizing k with
  | zero =>
    simp only [holdLoop]
    constructor
    · intro h j hj
      obtain rfl : j = 0 := Nat.le_zero.mp hj
      simpa using h
    · intro h
      simpa using h 0 (Nat.le_refl 0)
  | succ f ih =>
    simp only [holdLoop]
    cases hs : pressed k with
    | true =>
      simp only [if_true, ih]
      constructor
      · intro hall j hj
        cases j with
        | zero => simpa using hs
        | succ j =>
          have := hall j (by omega)
          have heq : k + 1 + j = k + (j + 1) := by omega
          simpa [heq] using this
      · intro hall j hj
        have := hall (j + 1) (by omega)
        have heq : k + (j + 1) = k + 1 + j := by omega
        simpa [heq] using this
    | false =>
      simp only [Bool.false_eq_true, if_false, false_iff]
      intro hall
      have := hall 0 (Nat.zero_le _)
      simp [hs] at this

theorem checkFactoryResetHold_eq_true_iff (pressed : Nat → Bool) :
    checkFactoryResetHold pressed = true ↔
      ∀ k, k ≤ FACTORY_HOLD_MS / 10 → pressed k = true := by
  unfold checkFactoryResetHold
  by_cases h0 : pressed 0 = true
  · simpa [h0] using holdLoop_eq_true_iff pressed (FACTORY_HOLD_MS / 10) 0
  · simp only [h0, if_false]
    constructor
    · intro h
      exact absurd h (by simp)
    · intro hall
      exact absurd (hall 0 (Nat.zero_le _)) h0

set_option maxRecDepth 8192 in
/-- For every byte, the source's signed-`char` branch tests and hex-digit
extraction agree with the claim's unsigned description. -/
theorem encodeByte_agree : ∀ b : Nat, b < 256 →
    isUnreservedSrc (signedChar b) = specUnreserved b ∧
    (signedChar b = 32 ↔ b = 32) ∧
    hexTable.getD (((signedChar b).fdiv 16).emod 16).toNat ' ' = upperHexDigit (b / 16) ∧
    hexTable.getD ((signedChar b).emod 16).toNat ' ' = upperHexDigit (b % 16) := by
  decide

theorem encodeByte_eq_specEncodeChar (c : Char) (h : c.toNat < 256) :
    encodeByte c = specEncodeChar c := by
  obtain ⟨h1, h2, h3, h4⟩ := encodeByte_agree c.toNat h
  simp only [encodeByte, specEncodeChar]
  rw [h1]
  by_cases hu : specUnreserved c.toNat = true
  · rw [if_pos hu, if_pos hu]
  · rw [if_neg hu, if_neg hu]
    by_cases hsp : c.toNat = 32
    · rw [if_pos (h2.mpr hsp), if_pos hsp]
    · rw [if_neg (fun hh => hsp (h2.mp hh)), if_neg hsp, h3, h4]

theorem urlEncodeList_eq_spec (l : List Char) (h : ∀ c ∈ l, c.toNat < 256) :
    urlEncodeList l = (l.map specEncodeChar).flatten := by
  induction l with
  | nil => rfl
  | cons c cs ih =>
    simp only [urlEncodeList, List.map_cons, List.flatten_cons]
    rw [encodeByte_eq_specEncodeChar c (h c (List.mem_cons_self c cs)),
      ih (fun d hd => h d (List.mem_cons_of_mem c hd))]

theorem digitChar_mem_decimalChars (n : Nat) : digitChar n ∈ decimalChars := by
  unfold digitChar decimalChars
  split_ifs <;> simp

theorem encodeByte_of_decimalChar (c : Char) (hc : c ∈ decimalChars) :
    encodeByte c = [c] := by
  simp only [decimalChars, List.mem_cons, List.not_mem_nil, or_false] at hc
  rcases hc with rfl | rfl | rfl | rfl | rfl | rfl | rfl | rfl | rfl | rfl | rfl <;>
    decide

theorem natDigits_subset_decimalChars (n : Nat) :
    ∀ c ∈ natDigits n, c ∈ decimalChars := by
  induction n using Nat.strong_induction_on with
  | _ n ih =>
    by_cases hlt : n < 10
    · rw [natDigits, if_pos hlt]
      intro c hc
      rw [List.mem_singleton] at hc
      subst hc
      exact digitChar_mem_decimalChars n
    · rw [natDigits, if_neg hlt]
      intro c hc
      rcases List.mem_append.mp hc with hc2 | hc2
      · exact ih (n / 10) (Nat.div_lt_self (by omega) (by omega)) c hc2
      · rw [List.mem_singleton] at hc2
        subst hc2
        exact digitChar_mem_decimalChars (n % 10)

theorem urlEncodeList_fixes_decimal (l : List Char)
    (h : ∀ c ∈ l, c ∈ decimalChars) : urlEncodeList l = l := by
  induction l with
  | nil => rfl
  | cons c cs ih =>
    simp only [urlEncodeList]
    rw [encodeByte_of_decimalChar c (h c (List.mem_cons_self c cs)),
      ih (fun d hd => h d (List.mem_cons_of_mem c hd))]
    rfl

theorem urlEncode_fixes_decimal (s : String)
    (h : ∀ c ∈ s.data, c ∈ decimalChars) : urlEncode s = s := by
  cases s with
  | mk l =>
    show (⟨urlEncodeList l⟩ : String) = ⟨l⟩
    rw [urlEncodeList_fixes_decimal l h]

theorem urlEncode_natDecimal (n : Nat) : urlEncode (natDecimal n) = natDecimal n :=
  urlEncode_fixes_decimal (natDecimal n) (natDigits_subset_decimalChars n)

theorem intDecimal_chars (i : Int) : ∀ c ∈ (intDecimal i).data, c ∈ decimalChars := by
  unfold intDecimal
  by_cases hneg : i < 0
  · rw [if_pos hneg]
    intro c hc
    rw [String.data_append] at hc
    rcases List.mem_append.mp hc with hc2 | hc2
    · have hdash : c = '-' := by
        have : (("-" : String)).data = ['-'] := rfl
        rw [this, List.mem_singleton] at hc2
        exact hc2
      subst hdash
      simp [decimalChars]
    · exact natDigits_subset_decimalChars i.natAbs c hc2
  · rw [if_neg hneg]
    exact natDigits_subset_decimalChars i.natAbs

theorem urlEncode_intDecimal (i : Int) : urlEncode (intDecimal i) = intDecimal i :=
  urlEncode_fixes_decimal (intDecimal i) (intDecimal_chars i)

/-- C1: for every POST `/save` submission whose post-override ssid and
api are non-empty, the three credential fields (ssid after the
`ssid_manual` override, pass, api) are written to the durable store iff
the validation join attempt observes the connected state at some poll
within the 20 000 ms timeout (poll `k` at elapsed `250 * k` ms,
`k ≤ 20000 / 250`); on a failed or timed-out validation the handler
responds with the failure page, makes no write, and the device remains
in access-point (provisioning) mode. -/
theorem c1_save_persists_iff_join (store : Credentials)
    (ssid ssidManual pass api : String) (status : Nat → Bool)
    (hssid : (if ssidManual.length ≠ 0 then ssidManual else ssid).length ≠ 0)
    (hapi : api.length ≠ 0) :
    ((handleSave store ssid ssidManual pass api status).storeWritten = true ↔
      ∃ k, k ≤ WIFI_CONNECT_TIMEOUT_MS / 250 ∧ status k = true) ∧
    ((handleSave store ssid ssidManual pass api status).storeWritten = true →
      (handleSave store ssid ssidManual pass api status).store =
        ⟨if ssidManual.length ≠ 0 then ssidManual else ssid, pass, api⟩ ∧
      (handleSave store ssid ssidManual pass api status).restart = true) ∧
    ((handleSave store ssid ssidManual pass api status).storeWritten = false →
      handleSave store ssid ssidManual pass api status =
        ⟨⟨200, none, Body.failurePage⟩, store, false, true, WifiMode.AP, false⟩) := by
  have hcond : ¬((if ssidManual.length ≠ 0 then ssidManual else ssid).length = 0 ∨
      api.length = 0) := by
    rintro (h | h)
    · exact hssid h
    · exact hapi h
  by_cases hj : joinLoop status 0 (WIFI_CONNECT_TIMEOUT_MS / 250) = true
  · have hs : handleSave store ssid ssidManual pass api status =
        ⟨⟨200, none, Body.successPage⟩,
          ⟨if ssidManual.length ≠ 0 then ssidManual else ssid, pass, api⟩,
          true, true, WifiMode.STA, true⟩ := by
      simp only [handleSave]
      rw [if_neg hcond, if_pos hj]
    rw [hs]
    refine ⟨?_, fun _ => ⟨rfl, rfl⟩, fun hfalse => Bool.noConfusion hfalse⟩
    constructor
    · intro _
      obtain ⟨j, hj1, hj2⟩ := (joinLoop_eq_true_iff status _ 0).mp hj
      exact ⟨j, hj1, by simpa using hj2⟩
    · intro _
      rfl
  · have hj0 : joinLoop status 0 (WIFI_CONNECT_TIMEOUT_MS / 250) = false := by
      simpa using hj
    have hs : handleSave store ssid ssidManual pass api status =
        ⟨⟨200, none, Body.failurePage⟩, store, false, true, WifiMode.AP, false⟩ := by
      simp only [handleSave]
      rw [if_neg hcond, if_neg (by simp [hj0])]
    rw [hs]
    refine ⟨?_, fun h2 => Bool.noConfusion h2, fun _ => rfl⟩
    constructor
    · intro h2
      exact Bool.noConfusion h2
    · rintro ⟨j, hle, hst⟩
      have hcontra := (joinLoop_eq_true_iff status (WIFI_CONNECT_TIMEOUT_MS / 250) 0).mpr
        ⟨j, hle, by simpa using hst⟩
      rw [hcontra] at hj0
      cases hj0

/-- Witness for C1 at a concrete input: the join connects at poll 2, so
the submitted record is persisted. -/
theorem c1_save_persists_iff_join_witness :
    (handleSave ⟨(""), (""), ("")⟩ ("Home") ("") ("secret") ("http://x/hb")
        (fun k => decide (k = 2))).storeWritten = true :=
  ((c1_save_persists_iff_join ⟨(""), (""), ("")⟩ ("Home") ("") ("secret")
      ("http://x/hb") (fun k => decide (k = 2)) (by decide) (by decide)).1).mpr
    ⟨2, by decide, by decide⟩

/-- C5: a POST `/save` submission whose ssid (after the `ssid_manual`
override) is empty, or whose api is empty, is answered 400, performs no
join attempt, and leaves the durable record unchanged. -/
theorem c5_missing_fields_rejected (store : Credentials)
    (ssid ssidManual pass api : String) (status : Nat → Bool)
    (h : (if ssidManual.length ≠ 0 then ssidManual else ssid).length = 0 ∨
      api.length = 0) :
    handleSave store ssid ssidManual pass api status =
      ⟨⟨400, none, Body.requiredFieldsMsg⟩, store, false, false, WifiMode.AP, false⟩ := by
  simp only [handleSave]
  rw [if_pos h]

/-- Witness for C5 at a concrete input: empty ssid with no manual
override is rejected and the prior record survives. -/
theorem c5_missing_fields_rejected_witness :
    handleSave ⟨("Home"), ("pw"), ("http://x")⟩ ("") ("") ("pw2") ("http://y")
        (fun _ => true) =
      ⟨⟨400, none, Body.requiredFieldsMsg⟩, ⟨("Home"), ("pw"), ("http://x")⟩,
        false, false, WifiMode.AP, false⟩ :=
  c5_missing_fields_rejected ⟨("Home"), ("pw"), ("http://x")⟩ ("") ("") ("pw2")
    ("http://y") (fun _ => true) (by decide)

/-- C2 counterexample: a stored record whose `pass` field is empty (so
the record is "partially empty" in the claim's sense) but whose ssid
and api are non-empty does initiate a join with the stored credentials
and enters Connected mode when the join succeeds — `setup()` only tests
ssid and api for emptiness. -/
theorem c2_counterexample :
    (⟨("Home"), (""), ("http://x")⟩ : Credentials).pass = ("") ∧
    setupBoot ⟨("Home"), (""), ("http://x")⟩ (fun _ => true) =
      ⟨WifiMode.STA, true⟩ := by
  constructor
  · rfl
  · decide

/-- C2 amended: a boot whose loaded record has an empty ssid or an
empty api (the source's provisioned test) enters provisioning (AP) mode
and never initiates a join; an empty pass alone does not prevent the
join. -/
theorem c2_amended_boot_unprovisioned (stored : Credentials)
    (status : Nat → Bool)
    (h : stored.ssid.length = 0 ∨ stored.api.length = 0) :
    setupBoot stored status = ⟨WifiMode.AP, false⟩ := by
  simp only [setupBoot]
  rw [if_pos h]

/-- Witness for the amended C2 at a concrete input. -/
theorem c2_amended_boot_unprovisioned_witness :
    setupBoot ⟨(""), ("pw"), ("http://x")⟩ (fun _ => true) =
      ⟨WifiMode.AP, false⟩ :=
  c2_amended_boot_unprovisioned ⟨(""), ("pw"), ("http://x")⟩ (fun _ => true)
    (by decide)

/-- C3 counterexample: a boot trace in which the input is inactive at
the initial sample (poll 0) and then continuously active forever — in
particular a fresh continuous hold covering the full 30 000 ms
threshold, polls 1 through 3001 — never triggers the reset: the
single startup gate ends at the first inactive sample, so a later
fresh hold of 30 000 ms does not trigger, contradicting the claim. -/
theorem c3_counterexample :
    checkFactoryResetHold (fun k => decide (1 ≤ k)) = false ∧
    ((List.range (FACTORY_HOLD_MS / 10 + 1)).all
      (fun j => decide (1 ≤ 1 + j))) = true := by
  constructor
  · decide
  · rw [List.all_eq_true]
    intro j _
    simp

/-- C3 amended: factory reset is triggered iff the control input is
active at every 10 ms poll of the single boot-time gate — active at the
initial sample and continuously through the full 30 000 ms threshold
(polls 0..3000).  A single continuous hold observed short of the
threshold never triggers, and once an inactive sample is seen the check
returns for this boot, so no later hold (however long) triggers without
a restart. -/
theorem c3_amended_hold_iff (pressed : Nat → Bool) :
    checkFactoryResetHold pressed = true ↔
      ∀ k, k ≤ FACTORY_HOLD_MS / 10 → pressed k = true :=
  checkFactoryResetHold_eq_true_iff pressed

/-- C4 counterexample: a request addressed to host 8.8.8.8 — a host
that is not the device's own access-point address 192.168.4.1 — is
answered with the 200 configuration page and no 302 redirect, because
the not-found handler only redirects hosts that do not look like an IP
literal. -/
theorem c4_counterexample :
    portalResponses ("192.168.4.1") ⟨(""), (""), ("")⟩ (fun _ => false)
        ⟨Method.GET, ("/probe"), ("8.8.8.8"), (""), (""), (""), ("")⟩ =
      [⟨200, none, Body.configPage⟩] ∧
    ("8.8.8.8" : String) ≠ ("192.168.4.1" : String) := by
  constructor
  · decide
  · decide

/-- C4 amended: while in provisioning mode, an inbound request matching
no registered route (not GET `/` and not POST `/save`) whose Host
header is not a digits-and-dots string receives a 302 redirect to the
device's own address first, independent of the requested path
(followed by the unconditionally sent configuration page); requests
whose host looks like an IP literal — even an address other than the
device's own — and GET `/` requests are answered with the 200
configuration page and are not redirected. -/
theorem c4_amended_redirect (apIP : String) (store : Credentials)
    (status : Nat → Bool) (req : Request)
    (hroot : ¬(req.method = Method.GET ∧ req.path = ("/")))
    (hsave : ¬(req.method = Method.POST ∧ req.path = ("/save")))
    (hhost : isIp req.host = false) :
    portalResponses apIP store status req =
      [⟨302, some (String.append ("http://") apIP), Body.emptyBody⟩,
        ⟨200, none, Body.configPage⟩] := by
  simp only [portalResponses]
  rw [if_neg hroot, if_neg hsave]
  simp only [handleCaptivePortal]
  rw [if_pos (by simp [hhost])]
  rfl

/-- Witness for the amended C4 at a concrete input: an OS connectivity
probe to a foreign domain is captured and redirected. -/
theorem c4_amended_redirect_witness :
    portalResponses ("192.168.4.1") ⟨(""), (""), ("")⟩ (fun _ => false)
        ⟨Method.GET, ("/generate_204"), ("connectivitycheck.example"), (""),
          (""), (""), ("")⟩ =
      [⟨302, some (String.append ("http://") ("192.168.4.1")), Body.emptyBody⟩,
        ⟨200, none, Body.configPage⟩] :=
  c4_amended_redirect ("192.168.4.1") ⟨(""), (""), ("")⟩ (fun _ => false)
    ⟨Method.GET, ("/generate_204"), ("connectivitycheck.example"), (""),
      (""), (""), ("")⟩ (by decide) (by decide) (by decide)

/-- C6: with a non-empty endpoint, a connected radio and a successful
`http.begin`, a heartbeat dispatch is classified ok exactly when some
HTTP response was obtained, whatever its status code (error statuses
such as 500 included); only a transport failure with no response is
classified as failed; the failure is logged only, the single GET is
never repeated within the call, and the loop state after the firing is
identical whatever the outcome — so a failed dispatch changes no state
and is not retried before the next scheduled firing. -/
theorem c6_dispatch_classification (api ipStr : String) (rssi : Int)
    (up : Nat) (outcome : HttpGetOutcome) (st : DeviceState) (now : Nat)
    (hapi : api.length ≠ 0) (hvalid : validGetOutcome outcome) :
    ((sendHeartbeat api true ipStr rssi up true outcome).ok = true ↔
      ∃ s, outcome = HttpGetOutcome.response s) ∧
    (sendHeartbeat api true ipStr rssi up true outcome).getCalls = 1 ∧
    (sendHeartbeat api true ipStr rssi up true outcome).loggedFailure =
      (!(sendHeartbeat api true ipStr rssi up true outcome).ok) ∧
    (loopStep st now true ipStr rssi true outcome).state =
      (loopStep st now true ipStr rssi true (HttpGetOutcome.response 200)).state := by
  have hnot : ¬(true = false) := by decide
  have hs : ∀ o : HttpGetOutcome, sendHeartbeat api true ipStr rssi up true o =
      ⟨some (heartbeatUrl api ipStr rssi up), some (heartbeatTransport api), 1,
        decide (0 < getReturnCode o), !decide (0 < getReturnCode o)⟩ := by
    intro o
    unfold sendHeartbeat
    rw [if_neg hapi, if_neg hnot, if_pos rfl]
  refine ⟨?_, ?_, ?_, ?_⟩
  · rw [hs outcome]
    cases outcome with
    | response s =>
      have h100 : (100 : Nat) ≤ s := hvalid
      have h0 : (0 : Int) < getReturnCode (HttpGetOutcome.response s) := by
        show (0 : Int) < (s : Int)
        exact_mod_cast Nat.lt_of_lt_of_le (by omega) h100
      simp only [decide_eq_true h0, true_iff]
      exact ⟨s, rfl⟩
    | noResponse e =>
      have he : e < 0 := hvalid
      have h0 : ¬((0 : Int) < getReturnCode (HttpGetOutcome.noResponse e)) := by
        show ¬((0 : Int) < e)
        omega
      simp only [decide_eq_false h0]
      constructor
      · intro h2
        exact Bool.noConfusion h2
      · rintro ⟨s, hcontra⟩
        cases hcontra
  · rw [hs outcome]
  · rw [hs outcome]
  · unfold loopStep
    by_cases hm : st.mode = WifiMode.AP
    · rw [if_pos hm, if_pos hm]
    · rw [if_neg hm, if_neg hm]
      by_cases ht : HEARTBEAT_INTERVAL_MS ≤ wrapSub now st.lastHeartbeat
      · rw [if_pos ht, if_pos ht]
      · rw [if_neg ht, if_neg ht]

/-- Witness for C6 at a concrete input: a 500 response still counts as
a dispatched heartbeat. -/
theorem c6_dispatch_classification_witness :
    (sendHeartbeat ("http://x/hb") true ("10.0.0.5") (-42) 123456 true
        (HttpGetOutcome.response 500)).ok = true :=
  ((c6_dispatch_classification ("http://x/hb") ("10.0.0.5") (-42) 123456
      (HttpGetOutcome.response 500) ⟨⟨("s"), ("p"), ("http://x/hb")⟩, 0, WifiMode.STA⟩
      0 (by decide) (by decide : (100 : Nat) ≤ 500)).1).mpr ⟨500, rfl⟩

/-- C7: in client mode the heartbeat timer fires exactly when 60 000 ms
have elapsed since the previous firing (the reference point is the
previous firing time, not a wall-clock grid), a firing records the
current time as the new reference point, and both the firing decision
and the resulting timer state are identical whatever the previous
dispatch outcome was. -/
theorem c7_heartbeat_timer (st : DeviceState) (now : Nat) (connected : Bool)
    (ipStr : String) (rssi : Int) (beginOk : Bool) (o1 o2 : HttpGetOutcome)
    (hmode : st.mode = WifiMode.STA)
    (hlast : st.lastHeartbeat ≤ now) (hnow : now < MILLIS_WRAP) :
    ((loopStep st now connected ipStr rssi beginOk o1).fired = true ↔
      HEARTBEAT_INTERVAL_MS ≤ now - st.lastHeartbeat) ∧
    ((loopStep st now connected ipStr rssi beginOk o1).fired = true →
      (loopStep st now connected ipStr rssi beginOk o1).state.lastHeartbeat = now) ∧
    (loopStep st now connected ipStr rssi beginOk o1).state =
      (loopStep st now connected ipStr rssi beginOk o2).state ∧
    (loopStep st now connected ipStr rssi beginOk o1).fired =
      (loopStep st now connected ipStr rssi beginOk o2).fired := by
  have hap : ¬(st.mode = WifiMode.AP) := by
    rw [hmode]
    intro h2
    cases h2
  have hwrap : wrapSub now st.lastHeartbeat = now - st.lastHeartbeat := by
    have h32 : MILLIS_WRAP = 4294967296 := rfl
    unfold wrapSub
    rw [h32]
    rw [h32] at hnow
    omega
  have hst : ∀ o : HttpGetOutcome, loopStep st now connected ipStr rssi beginOk o =
      if HEARTBEAT_INTERVAL_MS ≤ now - st.lastHeartbeat then
        ⟨{ st with lastHeartbeat := now }, true,
          some (sendHeartbeat st.creds.api connected ipStr rssi now beginOk o)⟩
      else ⟨st, false, none⟩ := by
    intro o
    unfold loopStep
    rw [if_neg hap, hwrap]
  by_cases ht : HEARTBEAT_INTERVAL_MS ≤ now - st.lastHeartbeat
  · have h1 := hst o1
    have h2 := hst o2
    rw [if_pos ht] at h1 h2
    rw [h1, h2]
    exact ⟨⟨fun _ => ht, fun _ => rfl⟩, fun _ => rfl, rfl, rfl⟩
  · have h1 := hst o1
    have h2 := hst o2
    rw [if_neg ht] at h1 h2
    rw [h1, h2]
    exact ⟨⟨fun hf => Bool.noConfusion hf, fun hc => absurd hc ht⟩,
      fun hf => Bool.noConfusion hf, rfl, rfl⟩

/-- Witness for C7 at a concrete input: exactly 60 000 ms after the
previous firing the timer fires again. -/
theorem c7_heartbeat_timer_witness :
    (loopStep ⟨⟨("s"), ("p"), ("http://x")⟩, 0, WifiMode.STA⟩ 60000 true ("ip")
        (-1) true (HttpGetOutcome.response 200)).fired = true :=
  ((c7_heartbeat_timer ⟨⟨("s"), ("p"), ("http://x")⟩, 0, WifiMode.STA⟩ 60000
      true ("ip") (-1) true (HttpGetOutcome.response 200)
      (HttpGetOutcome.noResponse (-1)) rfl (by decide) (by decide)).1).mpr
    (by decide)

/-- C8: a heartbeat firing with an empty stored endpoint or a radio
that is not currently connected is skipped silently: no URL is built,
no transport is chosen, no GET is dispatched, and no failure is
logged. -/
theorem c8_skip_silently (api : String) (connected : Bool) (ipStr : String)
    (rssi : Int) (up : Nat) (beginOk : Bool) (outcome : HttpGetOutcome)
    (h : api.length = 0 ∨ connected = false) :
    sendHeartbeat api connected ipStr rssi up beginOk outcome =
      ⟨none, none, 0, false, false⟩ := by
  unfold sendHeartbeat
  rcases h with h | h
  · rw [if_pos h]
  · by_cases ha : api.length = 0
    · rw [if_pos ha]
    · rw [if_neg ha, if_pos h]

/-- Witness for C8 at a concrete input: the empty endpoint is skipped. -/
theorem c8_skip_silently_witness :
    sendHeartbeat ("") true ("10.0.0.5") (-42) 5 true
        (HttpGetOutcome.response 200) = ⟨none, none, 0, false, false⟩ :=
  c8_skip_silently ("") true ("10.0.0.5") (-42) 5 true
    (HttpGetOutcome.response 200) (Or.inl (by decide))

/-- C9: every heartbeat request is a single GET to exactly
`{endpoint}?device=ESP32&ip=<ip>&rssi=<signed-int>&uptime_ms=<int>`
where the appended local address, signal strength and uptime values are
each percent-encoded (the decimal renderings are fixed points of the
percent-encoding, the address is encoded explicitly); a non-`https://`
endpoint selects the plain transport and an `https://` endpoint selects
the encrypted transport that skips certificate validation. -/
theorem c9_request_format (api ipStr : String) (rssi : Int) (up : Nat)
    (beginOk : Bool) (outcome : HttpGetOutcome) (hapi : api.length ≠ 0) :
    (sendHeartbeat api true ipStr rssi up beginOk outcome).urlRequested =
      some (api ++ ("?device=ESP32&ip=" ++ urlEncode ipStr ++ "&rssi=" ++
        intDecimal rssi ++ "&uptime_ms=" ++ natDecimal up)) ∧
    urlEncode (intDecimal rssi) = intDecimal rssi ∧
    urlEncode (natDecimal up) = natDecimal up ∧
    (sendHeartbeat api true ipStr rssi up beginOk outcome).getCalls ≤ 1 ∧
    ((sendHeartbeat api true ipStr rssi up beginOk outcome).transport =
        some TransportKind.plainTcp ↔ api.startsWith ("https://") = false) ∧
    (api.startsWith ("https://") = true →
      (sendHeartbeat api true ipStr rssi up beginOk outcome).transport =
        some TransportKind.tlsInsecure) := by
  have hnot : ¬(true = false) := by decide
  have hs : sendHeartbeat api true ipStr rssi up beginOk outcome =
      if beginOk then
        ⟨some (heartbeatUrl api ipStr rssi up), some (heartbeatTransport api),
          1, decide (0 < getReturnCode outcome),
          !decide (0 < getReturnCode outcome)⟩
      else
        ⟨some (heartbeatUrl api ipStr rssi up), some (heartbeatTransport api),
          0, false, true⟩ := by
    unfold sendHeartbeat
    rw [if_neg hapi, if_neg hnot]
  have htrans : heartbeatTransport api =
      (if api.startsWith ("https://") then TransportKind.tlsInsecure
       else TransportKind.plainTcp) := by
    unfold heartbeatTransport ALLOW_INSECURE_HTTPS
    rw [if_pos rfl]
  refine ⟨?_, urlEncode_intDecimal rssi, urlEncode_natDecimal up, ?_, ?_, ?_⟩
  · rw [hs]
    cases beginOk
    · rfl
    · rfl
  · rw [hs]
    cases beginOk
    · exact Nat.zero_le 1
    · exact Nat.le_refl 1
  · rw [hs, htrans]
    cases beginOk <;> cases hSw : api.startsWith ("https://") <;> simp [hSw]
  · rw [hs, htrans]
    cases beginOk <;> cases hSw : api.startsWith ("https://") <;> simp [hSw]

/-- Witness for C9 at a concrete input: the exact URL built for an
`https` endpoint, and the insecure TLS transport chosen for it. -/
theorem c9_request_format_witness :
    (sendHeartbeat ("https://x/hb") true ("10.0.0.5") (-42) 123456 true
        (HttpGetOutcome.response 200)).urlRequested =
      some (("https://x/hb") ++ ("?device=ESP32&ip=" ++ urlEncode ("10.0.0.5") ++
        "&rssi=" ++ intDecimal (-42) ++ "&uptime_ms=" ++ natDecimal 123456)) :=
  (c9_request_format ("https://x/hb") ("10.0.0.5") (-42) 123456 true
    (HttpGetOutcome.response 200) (by decide)).1

/-- C10: on byte-valued input, `urlEncode` realises exactly the
claimed per-character mapping — `[A-Za-z0-9]` and `- _ . ~` map to
themselves, the space to `+`, every other byte to `%` plus its two
uppercase hexadecimal digits, concatenated in input order — and its
output on the empty string is empty. -/
theorem c10_urlEncode_matches_spec (s : String)
    (h : ∀ c ∈ s.data, c.toNat < 256) :
    urlEncode s = urlEncodeSpec s ∧ urlEncode ("") = ("") := by
  constructor
  · cases s with
    | mk l =>
      show (⟨urlEncodeList l⟩ : String) = ⟨(l.map specEncodeChar).flatten⟩
      rw [urlEncodeList_eq_spec l h]
  · rfl

/-- Witness for C10 at a concrete input containing unreserved
characters, a space, a reserved ASCII byte and a byte above 127. -/
theorem c10_urlEncode_matches_spec_witness :
    urlEncode ("a b-_.~%é") = urlEncodeSpec ("a b-_.~%é") :=
  (c10_urlEncode_matches_spec ("a b-_.~%é") (by decide)).1
